import Mathlib

/-
Verification development for the map_scanner repository.

Shallow embedding conventions:
- Python ints are modelled as `Int`/`Nat`, Python floats as `ℚ` (all float
  arithmetic relevant to the claims is order/linear arithmetic, exactly
  representable over the rationals).
- External library calls (pyautogui screenshots, cv2 grayscale conversion and
  `matchTemplate`, the OCR engine) are modelled as explicit parameters holding
  the value the library returned: the code under verification only branches on
  those values.
- Python exceptions are modelled with `Except`: a `try/except` block becomes a
  `match` on the `Except` value produced by the body.
- Python strings are Lean `String`s; the inputs in all claims are ASCII, and
  `str.lower`/`str.strip` are modelled on their ASCII behaviour.
-/

set_option autoImplicit false

namespace MapScannerProof

/-! ## Configuration (src/map_scanner/config.py) -/

/-- `CaptureConfig.MAX_CORNER_SEARCH_ATTEMPTS = 200`. -/
def CaptureConfig.MAX_CORNER_SEARCH_ATTEMPTS : Nat := 200

/-- `CaptureConfig` defines no attribute named `SIMILARITY_THRESHOLD` (the
constant of that name lives on `ScanConfig`).  The attribute lookup
`CaptureConfig.SIMILARITY_THRESHOLD` performed by
`ScreenCapture.detect_movement` therefore fails, which we model as an
`Option` that is `none`. -/
def CaptureConfig.similarityThresholdAttr : Option ℚ := none

/-- `ScanConfig.SIMILARITY_THRESHOLD = 98.0` (config.py line 136). -/
def ScanConfig.SIMILARITY_THRESHOLD : ℚ := 98

/-- The four quality-score weights (keys of the Python dict
`ScanConfig.QUALITY_WEIGHTS`). -/
structure QualityWeights where
  confidence : ℚ
  size : ℚ
  count : ℚ
  readability : ℚ
deriving DecidableEq

/-- `ScanConfig.QUALITY_WEIGHTS = {confidence: 0.3, size: 0.2, count: 0.2,
readability: 0.3}`. -/
def ScanConfig.QUALITY_WEIGHTS : QualityWeights :=
  ⟨3/10, 2/10, 2/10, 3/10⟩

/-- `ScanConfig.ZOOM_LEVELS_TO_TEST`: pairs `(zoom_level, clicks_per_level)`. -/
def ScanConfig.ZOOM_LEVELS_TO_TEST : List (Int × Int) :=
  [(1, 2), (2, 2), (3, 2), (-1, 2), (-2, 2), (-3, 2)]

/-! ## Utility layer (src/map_scanner/utils.py) -/

/-- `safe_clamp(value, min_val, max_val) = max(min_val, min(value, max_val))`. -/
def safe_clamp (value min_val max_val : Int) : Int :=
  max min_val (min value max_val)

/-- `calculate_overlap_step(capture_size, overlap_percent)`:
`int(capture_size * (1 - overlap_percent / 100))`.  For the arguments used by
the scanner both factors are nonnegative, so Python `int(...)` truncation is
floor division by 100. -/
def calculate_overlap_step (capture_size : Nat) (overlap_percent : Nat) : Nat :=
  capture_size * (100 - overlap_percent) / 100

/-! ### Alliance-tag stripping (`extract_player_name_from_alliance_tag`)

The Python function applies five anchored lazy regex substitutions in order:
`^\[.*?\]`, `^\(.*?\)`, `^\x7b.*?\x7d`, `^\<.*?\>`, `^.*?\|`, each followed by
`str.strip()`, and falls back to the original text when the result is empty.
In a Python regex, `.` does not match a newline and `.*?` is lazy, so each
pattern removes the shortest leading segment ending at the first closing
delimiter, provided no newline intervenes; with `^` anchored and no MULTILINE
flag, `re.sub` performs at most one such removal per call. -/

/-- Left brace character (written via its code point). -/
def lbraceChar : Char := Char.ofNat 123

/-- Right brace character (written via its code point). -/
def rbraceChar : Char := Char.ofNat 125

/-- Characters removed by Python `str.strip()` (ASCII whitespace). -/
def isPySpace (c : Char) : Bool :=
  c == ' ' || c == '\t' || c == '\n' || c == '\r' ||
    c == Char.ofNat 11 || c == Char.ofNat 12

/-- Python `str.strip()` on a character list. -/
def pyStrip (l : List Char) : List Char :=
  ((l.dropWhile isPySpace).reverse.dropWhile isPySpace).reverse

/-- Scan for the first occurrence of `close`, as the lazy regex fragment
`.*?close` does: succeed at the first `close`, fail on a newline (which `.`
cannot match) or at end of input.  Returns the remainder after `close`. -/
def findClose (close : Char) : List Char → Option (List Char)
  | [] => none
  | c :: rest =>
    if c == close then some rest
    else if c == '\n' then none
    else findClose close rest

/-- One substitution `re.sub('^open.*?close', '', s)` for a bracket-style tag. -/
def stripLeadingTag (openc closec : Char) (l : List Char) : List Char :=
  match l with
  | [] => []
  | c :: rest =>
    if c == openc then
      match findClose closec rest with
      | some rem => rem
      | none => c :: rest
    else c :: rest

/-- One substitution `re.sub('^.*?|', '', s)` for a pipe-delimited tag
(the pattern's `.*?` may be empty, so this removes everything up to and
including the first `|`, if one occurs before any newline). -/
def stripToPipe (l : List Char) : List Char :=
  match findClose '|' l with
  | some rem => rem
  | none => l

/-- `extract_player_name_from_alliance_tag` (utils.py lines 22-44): the five
patterns applied once each, in order, with `strip()` after each substitution,
and the original text returned when the final result is empty. -/
def extract_player_name_from_alliance_tag (text : String) : String :=
  let c1 := pyStrip (stripLeadingTag '[' ']' text.toList)
  let c2 := pyStrip (stripLeadingTag '(' ')' c1)
  let c3 := pyStrip (stripLeadingTag lbraceChar rbraceChar c2)
  let c4 := pyStrip (stripLeadingTag '<' '>' c3)
  let c5 := pyStrip (stripToPipe c4)
  if c5 = [] then text else String.mk c5

/-! ### Quality scoring (`calculate_quality_score`, utils.py lines 161-210) -/

/-- `confidence_score = min(confidence, 100)`. -/
def confidence_score (confidence : ℚ) : ℚ := min confidence 100

/-- The tiered text-height score. -/
def size_score (height : ℚ) : ℚ :=
  if 12 ≤ height ∧ height ≤ 25 then 100
  else if 8 ≤ height ∧ height < 12 then 85
  else if 25 < height ∧ height ≤ 35 then 85
  else if height < 8 then 50
  else 70

/-- `count_score = min(text_count * 15, 100)`. -/
def count_score (text_count : Nat) : ℚ := min ((text_count : ℚ) * 15) 100

/-- `readability_score = min(readable_words * 25, 100)`. -/
def readability_score (readable_words : Nat) : ℚ :=
  min ((readable_words : ℚ) * 25) 100

/-- `calculate_quality_score`: the weighted sum of the four component scores. -/
def calculate_quality_score (confidence height : ℚ) (text_count readable_words : Nat)
    (weights : QualityWeights) : ℚ :=
  confidence_score confidence * weights.confidence +
    size_score height * weights.size +
    count_score text_count * weights.count +
    readability_score readable_words * weights.readability

/-! ## Screen capture (src/map_scanner/screen_capture.py)

`Frame` stands for the numpy array a capture produces; its pixel contents only
matter to the external cv2 calls, which are parametrised (see `detect_movement`).
-/

/-- A captured raster frame (rows of pixel values). -/
abbrev Frame := List (List Nat)

/-- The exceptions that can escape the capture/drag layer: `SafetyExit` and
`CaptureError` (both subclasses of `Exception` via `MapScannerError`, so a bare
`except Exception` catches them).  The payload is the message `str(e)` shows. -/
inductive PyExc where
  | safetyExit (msg : String)
  | captureError (msg : String)
deriving DecidableEq

/-- `str(e)` for an exception: its message. -/
def PyExc.toMsg : PyExc → String
  | .safetyExit m => m
  | .captureError m => m

/-- The diagnostic half of the `(moved, info)` pairs returned by the movement
detector and its composition.  Constructors stand for the concrete strings the
code builds (the similarity branch formats the percentage with `%.1f`). -/
inductive MoveInfo where
  /-- `f"{similarity_percentage:.1f}% similar"` -/
  | similarInfo (percent : ℚ)
  /-- `"Invalid images provided"` -/
  | invalidImages
  /-- `str(AttributeError)`: `CaptureConfig` has no attribute
  `SIMILARITY_THRESHOLD`, caught by `detect_movement`'s own handler -/
  | attrError
  /-- `"Could not capture before image"` -/
  | beforeNone
  /-- `"Drag operation failed"` -/
  | dragFailed
  /-- `"Could not capture after image"` -/
  | afterNone
  /-- `str(e)` from the `except Exception` handler of
  `capture_and_detect_movement` -/
  | caughtExc (msg : String)
deriving DecidableEq

/-- `ScreenCapture.capture_screen(running_flag)` (lines 57-86).  `shot` is the
outcome of the external `pyautogui.screenshot` call (`Except.error` when the
library raised).  The function checks the running flag, re-raises `SafetyExit`,
wraps any other failure in `CaptureError`, and on success returns
`np.array(screenshot)` - which is a real array, never `None`; the declared
return type `Optional[np.ndarray]` is modelled by the `Option`. -/
def capture_screen (running_flag : Bool) (shot : Except String Frame) :
    Except PyExc (Option Frame) :=
  if running_flag = false then Except.error (PyExc.safetyExit "Capture stopped")
  else
    match shot with
    | Except.ok img => Except.ok (some img)
    | Except.error e =>
        Except.error (PyExc.captureError ("Screen capture failed: " ++ e))

/-- `MouseController.safe_drag` (mouse_controller.py lines 109-183), as seen by
its caller: raises `SafetyExit` when the running flag is false (both flag checks
read the same flag value within one call), otherwise reports the success of the
external drag (`dragOk`; the method's own handler turns non-`SafetyExit`
failures into `False`). -/
def safe_drag (running_flag : Bool) (dragOk : Bool) : Except PyExc Bool :=
  if running_flag = false then
    Except.error (PyExc.safetyExit "Drag operation stopped")
  else Except.ok dragOk

/-- `ScreenCapture.detect_movement` (lines 100-133).  `corr` is the value the
external `cv2.matchTemplate(before_gray, after_gray, TM_CCOEFF_NORMED)[0][0]`
call computed from the two frames.  The body then evaluates
`similarity_percentage < CaptureConfig.SIMILARITY_THRESHOLD`; that attribute
does not exist, and the resulting `AttributeError` is caught by the function's
own `except Exception` handler, yielding `(False, str(e))`. -/
def detect_movement (corr : ℚ) (before after : Option Frame) : Bool × MoveInfo :=
  match before, after with
  | none, _ => (false, MoveInfo.invalidImages)
  | some _, none => (false, MoveInfo.invalidImages)
  | some _, some _ =>
    let similarity_percentage := corr * 100
    match CaptureConfig.similarityThresholdAttr with
    | some thr => (decide (similarity_percentage < thr),
                   MoveInfo.similarInfo similarity_percentage)
    | none => (false, MoveInfo.attrError)

/-- `ScreenCapture.capture_and_detect_movement` (lines 135-180).  The whole
body sits in a `try` whose handler is `except Exception as e: return False,
str(e)` - and since `SafetyExit` subclasses `Exception`, the handler catches it
too.  `shot1`/`shot2` are the two external screenshot outcomes, `dragOk` the
external drag outcome, `corr` the external correlation value. -/
def capture_and_detect_movement (running_flag : Bool)
    (shot1 shot2 : Except String Frame) (dragOk : Bool) (corr : ℚ) :
    Bool × MoveInfo :=
  match capture_screen running_flag shot1 with
  | Except.error e => (false, MoveInfo.caughtExc e.toMsg)
  | Except.ok none => (false, MoveInfo.beforeNone)
  | Except.ok (some b) =>
    match safe_drag running_flag dragOk with
    | Except.error e => (false, MoveInfo.caughtExc e.toMsg)
    | Except.ok false => (false, MoveInfo.dragFailed)
    | Except.ok true =>
      match capture_screen running_flag shot2 with
      | Except.error e => (false, MoveInfo.caughtExc e.toMsg)
      | Except.ok none => (false, MoveInfo.afterNone)
      | Except.ok (some a) => detect_movement corr (some b) (some a)

/-- `ScreenCapture._calculate_capture_coordinates` (lines 88-98).  Capture
sizes are the positive pair computed at initialisation, so Python `// 2` is
natural floor division. -/
def calculate_capture_coordinates (center_x center_y : Int)
    (capture_w capture_h : Nat)
    (effective_game_area : Option (Int × Int × Int × Int)) : Int × Int :=
  let x := center_x - ((capture_w / 2 : Nat) : Int)
  let y := center_y - ((capture_h / 2 : Nat) : Int)
  match effective_game_area with
  | some (eff_x, eff_y, eff_width, eff_height) =>
    (safe_clamp x eff_x (eff_x + eff_width - (capture_w : Int)),
     safe_clamp y eff_y (eff_y + eff_height - (capture_h : Int)))
  | none => (x, y)

/-! ## Corner search (src/map_scanner/map_scanner.py lines 291-328)

The loop body is deterministic given the sequence of booleans that the
successive `capture_and_detect_movement` calls return, so we model that
sequence as an oracle indexed by call number.  Within one iteration the first
oracle value is the 450px drag's `moved` and, when that is false, the next one
is the 200px confirmation drag's `moved_confirm`.  The run below assumes the
cooperative-cancellation checks pass (`running` stays true and the window stays
valid), which is the regime the claim describes.  The result records the
returned boolean together with the call index at which "TOP-LEFT CORNER
REACHED" was declared (`none` when the attempt bound was exhausted and the
"Corner search completed" path returned instead). -/

/-- The `for attempt in range(...)` loop of `find_top_left_corner`.  The first
argument of the recursion is the number of remaining attempts, the second the
index of the next oracle call. -/
def corner_search_loop (oracle : Nat → Bool) : Nat → Nat → Bool × Option Nat
  | 0, _ => (true, none)
  | fuel + 1, k =>
    let moved := oracle k
    if moved = false then
      let moved_confirm := oracle (k + 1)
      if moved_confirm = false then (true, some k)
      else corner_search_loop oracle fuel (k + 2)
    else corner_search_loop oracle fuel (k + 1)

/-- `MapScanner.find_top_left_corner`: the initial `safe_move_mouse` guard
(whose success is `moveOk`) followed by the bounded search loop. -/
def find_top_left_corner (moveOk : Bool) (oracle : Nat → Bool) :
    Bool × Option Nat :=
  if moveOk = false then (false, none)
  else corner_search_loop oracle CaptureConfig.MAX_CORNER_SEARCH_ATTEMPTS 0

/-! ## Zoom calibration clicks (map_scanner.py lines 204-219, 253-270) -/

/-- The scroll clicks the test loop of `calibrate_zoom` passes to
`zoom_control` for one entry of `ZOOM_LEVELS_TO_TEST`:
`zoom_clicks = clicks_per_level if zoom_level > 0 else -clicks_per_level`. -/
def zoom_clicks_for_test (zoom_level clicks_per_level : Int) : Int :=
  if zoom_level > 0 then clicks_per_level else -clicks_per_level

/-- The contribution of one tested level to `reset_clicks` in
`_reset_and_apply_optimal_zoom`: `-level * 2`. -/
def reset_clicks_term (zoom_level : Int) : Int := -zoom_level * 2

/-- The clicks `_reset_and_apply_optimal_zoom` issues to land on the winner:
`optimal_clicks = best_zoom_level * 2`. -/
def optimal_clicks (best_zoom_level : Int) : Int := best_zoom_level * 2

/-! ## Target search (map_scanner.py lines 330-412)

`search_for_targets` first runs the OCR engine; the engine's outcome is
parametrised as the pair `best_text`/`best_confidence` it returned.  Everything
after that point is pure string processing, embedded below. -/

/-- Python `str.lower()` (ASCII range, which covers every input the claims
use). -/
def pyLower (s : String) : String := String.mk (s.toList.map Char.toLower)

/-- `needle in hay` for lists of characters (Python substring containment). -/
def isSubstringList (needle : List Char) : List Char → Bool
  | [] => needle.isEmpty
  | c :: t => needle.isPrefixOf (c :: t) || isSubstringList needle t

/-- Python `needle in hay` on strings. -/
def str_contains (hay needle : String) : Bool :=
  isSubstringList needle.toList hay.toList

/-- Helper for `pySplit`: accumulate the current word (reversed) while
scanning; whitespace runs produce no empty pieces. -/
def pySplitAux (cur : List Char) : List Char → List (List Char)
  | [] => if cur = [] then [] else [cur.reverse]
  | c :: rest =>
    if isPySpace c then
      if cur = [] then pySplitAux [] rest
      else cur.reverse :: pySplitAux [] rest
    else pySplitAux (c :: cur) rest

/-- Python `str.split()` with no arguments: split on whitespace runs,
discarding empty pieces. -/
def pySplit (s : String) : List String :=
  (pySplitAux [] s.toList).map String.mk

/-- One entry of `found_targets`: the dict built for a match.  The constant
`ocr_strategy: 'comprehensive'` field is omitted. -/
structure TargetMatch where
  name : String
  detected_text : String
  matched_word : Option String
  match_type : String
  confidence : ℚ
deriving DecidableEq

/-- The word-level comparison of the inner loop: the target (raw and
tag-stripped, both lowered) against the word (raw and tag-stripped, both
lowered). -/
def word_matches (target_lower target_without_tags word : String) : Bool :=
  let word_without_tags := pyLower (extract_player_name_from_alliance_tag word)
  (target_lower == pyLower word) || (target_lower == word_without_tags) ||
    (target_without_tags == pyLower word) ||
    (target_without_tags == word_without_tags)

/-- The body of the `for target_name in target_names` loop: the candidate
match this target contributes, if any.  The `continue` after an `exact_full`
append and the `break` after the first word hit mean each target contributes at
most one entry. -/
def match_target (best_text : String) (best_confidence : ℚ)
    (target_name : String) : Option TargetMatch :=
  let detected_text := pyLower best_text
  let target_lower := pyLower target_name
  let target_without_tags :=
    pyLower (extract_player_name_from_alliance_tag target_name)
  if str_contains detected_text target_lower then
    some ⟨target_name, best_text, none, "exact_full", best_confidence⟩
  else
    match (pySplit detected_text).find?
        (word_matches target_lower target_without_tags) with
    | some word =>
        some ⟨target_name, best_text, some word, "exact_word", best_confidence⟩
    | none => none

/-- The `found_targets` list accumulated over all target names. -/
def found_targets (best_text : String) (best_confidence : ℚ)
    (target_names : List String) : List TargetMatch :=
  target_names.filterMap (match_target best_text best_confidence)

/-- Python `max(found_targets, key=lambda x: x.get('confidence', 0))` on a
possibly-empty list: scan left to right, replacing the current best only on a
strictly greater key, so the first element wins all ties. -/
def pyMax_by_confidence : List TargetMatch → Option TargetMatch
  | [] => none
  | x :: xs =>
      some (xs.foldl (fun acc y => if acc.confidence < y.confidence then y else acc) x)

/-- `MapScanner.search_for_targets` after the OCR call: the falsy-text early
return, the per-target matching, and the highest-confidence selection. -/
def search_for_targets (best_text : String) (best_confidence : ℚ)
    (target_names : List String) : Bool × Option TargetMatch :=
  if best_text = "" then (false, none)
  else
    match pyMax_by_confidence (found_targets best_text best_confidence target_names) with
    | some best_match => (true, some best_match)
    | none => (false, none)

/-! ## Helper lemmas -/

theorem corner_search_loop_fst (oracle : Nat → Bool) :
    ∀ (fuel k : Nat), (corner_search_loop oracle fuel k).1 = true := by
  intro fuel
  induction fuel with
  | zero => intro k; rfl
  | succ n ih =>
    intro k
    by_cases h1 : oracle k = false
    · by_cases h2 : oracle (k + 1) = false
      · simp [corner_search_loop, h1, h2]
      · simp [corner_search_loop, h1, h2, ih]
    · simp [corner_search_loop, h1, ih]

theorem corner_search_loop_some (oracle : Nat → Bool) :
    ∀ (fuel k j : Nat), (corner_search_loop oracle fuel k).2 = some j →
      oracle j = false ∧ oracle (j + 1) = false := by
  intro fuel
  induction fuel with
  | zero => intro k j h; simp [corner_search_loop] at h
  | succ n ih =>
    intro k j h
    by_cases h1 : oracle k = false
    · by_cases h2 : oracle (k + 1) = false
      · simp only [corner_search_loop, h1, h2, if_true] at h
        simp at h
        exact h ▸ ⟨h1, h2⟩
      · simp only [corner_search_loop, h1, if_true] at h
        rw [if_neg h2] at h
        exact ih (k + 2) j h
    · simp only [corner_search_loop] at h
      rw [if_neg h1] at h
      exact ih (k + 1) j h

theorem match_target_confidence (text : String) (conf : ℚ) (t : String)
    (m : TargetMatch) (h : match_target text conf t = some m) :
    m.confidence = conf := by
  simp only [match_target] at h
  split at h
  · obtain rfl := Option.some.inj h
    rfl
  · split at h
    · obtain rfl := Option.some.inj h
      rfl
    · exact Option.noConfusion h

theorem match_target_name (text : String) (conf : ℚ) (t : String)
    (m : TargetMatch) (h : match_target text conf t = some m) : m.name = t := by
  simp only [match_target] at h
  split at h
  · obtain rfl := Option.some.inj h
    rfl
  · split at h
    · obtain rfl := Option.some.inj h
      rfl
    · exact Option.noConfusion h

theorem foldl_pyMax_const (c : ℚ) :
    ∀ (xs : List TargetMatch) (x : TargetMatch), x.confidence = c →
      (∀ y ∈ xs, y.confidence = c) →
      xs.foldl (fun acc y => if acc.confidence < y.confidence then y else acc) x
        = x := by
  intro xs
  induction xs with
  | nil => intro x _ _; rfl
  | cons y ys ih =>
    intro x hx hall
    have hy : y.confidence = c := hall y (List.mem_cons_self y ys)
    rw [List.foldl_cons]
    have hstep : (if x.confidence < y.confidence then y else x) = x := by
      rw [hx, hy]
      simp
    rw [hstep]
    exact ih x hx (fun z hz => hall z (List.mem_cons_of_mem y hz))

theorem pyMax_all_eq (l : List TargetMatch) (c : ℚ)
    (h : ∀ m ∈ l, m.confidence = c) : pyMax_by_confidence l = l.head? := by
  cases l with
  | nil => rfl
  | cons x xs =>
    simp only [pyMax_by_confidence, List.head?_cons]
    congr 1
    exact foldl_pyMax_const c xs x (h x (List.mem_cons_self x xs))
      (fun y hy => h y (List.mem_cons_of_mem x hy))

theorem found_targets_confidence (text : String) (conf : ℚ)
    (names : List String) : ∀ m ∈ found_targets text conf names,
      m.confidence = conf := by
  intro m hm
  unfold found_targets at hm
  obtain ⟨t, _, hmt⟩ := List.mem_filterMap.mp hm
  exact match_target_confidence text conf t m hmt

theorem found_targets_countP (text : String) (conf : ℚ) (names : List String)
    (n : String) :
    (found_targets text conf names).countP (fun m => m.name == n)
      ≤ names.countP (fun t => t == n) := by
  induction names with
  | nil => simp [found_targets]
  | cons t ts ih =>
    unfold found_targets at ih ⊢
    cases hmt : match_target text conf t with
    | none =>
      simp only [List.filterMap_cons, hmt, List.countP_cons]
      split <;> omega
    | some m =>
      have hname : m.name = t := match_target_name text conf t m hmt
      simp only [List.filterMap_cons, hmt, List.countP_cons, hname]
      split <;> omega

theorem found_targets_append_none (text : String) (conf : ℚ)
    (pre names : List String) (h : ∀ p ∈ pre, match_target text conf p = none) :
    found_targets text conf (pre ++ names) = found_targets text conf names := by
  unfold found_targets
  rw [List.filterMap_append]
  rw [List.filterMap_eq_nil_iff.mpr h, List.nil_append]

theorem confidence_score_strict_mono (c1 c2 : ℚ) (h : c1 < c2) (h2 : c2 ≤ 100) :
    confidence_score c1 < confidence_score c2 := by
  unfold confidence_score
  rw [min_eq_left h2, min_eq_left (le_of_lt (lt_of_lt_of_le h h2))]
  exact h

theorem readability_score_strict_mono (r1 r2 : Nat) (h : r1 < r2) (h2 : r2 ≤ 4) :
    readability_score r1 < readability_score r2 := by
  have h4 : (r2 : ℚ) ≤ 4 := by exact_mod_cast h2
  have h1 : (r1 : ℚ) < (r2 : ℚ) := by exact_mod_cast h
  unfold readability_score
  rw [min_eq_left (by linarith), min_eq_left (by linarith)]
  linarith

/-! ## Claims -/

/-- Claim C1 (code bug): `detect_movement` is supposed to report movement
exactly when the similarity percentage is strictly below the 98.0 threshold,
but the comparison reads `CaptureConfig.SIMILARITY_THRESHOLD` - an attribute
that does not exist (the constant is `ScanConfig.SIMILARITY_THRESHOLD`) - and
the resulting `AttributeError` is swallowed by the function's own handler, so
`moved` is `false` for every pair of valid frames, including pairs whose
correlation is 0 (similarity 0% < 98). -/
theorem claim_C1_detect_movement_attribute_bug :
    (∀ (corr : ℚ) (b a : Frame),
      (detect_movement corr (some b) (some a)).1 = false)
    ∧ detect_movement 0 (some [[0]]) (some [[255]]) = (false, MoveInfo.attrError)
    ∧ (0 : ℚ) * 100 < ScanConfig.SIMILARITY_THRESHOLD
    ∧ CaptureConfig.similarityThresholdAttr = none := by
  refine ⟨fun corr b a => rfl, rfl, ?_, rfl⟩
  norm_num [ScanConfig.SIMILARITY_THRESHOLD]

/-- Claim C2 (code bug): a `SafetyExit` raised inside
`capture_and_detect_movement` (here: by `capture_screen` when the running flag
is false) is caught by that method's bare `except Exception` handler and
converted into the ordinary "no movement" return value
`(False, "Capture stopped")` instead of propagating. -/
theorem claim_C2_safety_exit_swallowed :
    ∀ (shot1 shot2 : Except String Frame) (dragOk : Bool) (corr : ℚ),
      capture_and_detect_movement false shot1 shot2 dragOk corr
        = (false, MoveInfo.caughtExc "Capture stopped")
      ∧ capture_screen false shot1
        = Except.error (PyExc.safetyExit "Capture stopped") := by
  intro shot1 shot2 dragOk corr
  exact ⟨rfl, rfl⟩

/-- Claim C3 (counterexample): on best text `"[ally]johndoe says hi"` with
target list `["JohnDoe"]`, the single returned match has type `"exact_full"`
and no matched word - not type `"exact_word"` with matched word `"johndoe"` as
the claim states - because `"johndoe"` is a substring of the lowered full text,
so the substring branch fires before word matching. -/
theorem claim_C3_counterexample :
    (search_for_targets "[ally]johndoe says hi" 50 ["JohnDoe"]).2.map
        (fun m => m.match_type) = some "exact_full"
    ∧ (search_for_targets "[ally]johndoe says hi" 50 ["JohnDoe"]).2.map
        (fun m => m.matched_word) = some none
    ∧ ("exact_full" : String) ≠ "exact_word" := by
  refine ⟨rfl, rfl, by decide⟩

/-- Claim C3 (amended): when the OCR best text is `"[ally]johndoe says hi"`
and the target list is `["JohnDoe"]`, `search_for_targets` returns exactly one
match, of type `"exact_full"` (the lower-cased target is a substring of the
lower-cased full text), with no matched word and the frame's best
confidence. -/
theorem claim_C3_amended : ∀ conf : ℚ,
    search_for_targets "[ally]johndoe says hi" conf ["JohnDoe"]
      = (true, some ⟨"JohnDoe", "[ally]johndoe says hi", none, "exact_full", conf⟩) := by
  intro conf
  rfl

/-- Claim C4 (code bug): the calibration test loop passes
`clicks_per_level if zoom_level > 0 else -clicks_per_level` to `zoom_control`,
i.e. `sign(delta) * 2` clicks, not `delta * 2`: for the tested delta `+2` it
applies 2 clicks where the claim (and the scanner's own reset logic
`-level * 2` and final application `best_zoom_level * 2`) require 4, so one
test-plus-reset cycle for that level does not even cancel out. -/
theorem claim_C4_zoom_clicks_bug :
    (2, 2) ∈ ScanConfig.ZOOM_LEVELS_TO_TEST
    ∧ zoom_clicks_for_test 2 2 = 2
    ∧ zoom_clicks_for_test 2 2 ≠ 2 * 2
    ∧ reset_clicks_term 2 = -4
    ∧ zoom_clicks_for_test 2 2 + reset_clicks_term 2 ≠ 0
    ∧ optimal_clicks 2 = 4 := by
  decide

/-- Claim C5 (counterexample): alliance-tag stripping is not idempotent - each
of the five patterns is substituted once, in a fixed order, so a second leading
tag of an already-processed kind survives the first pass:
`"[ABC][DEF]PlayerX"` strips to `"[DEF]PlayerX"`, which strips again to
`"PlayerX"`. -/
theorem claim_C5_counterexample :
    extract_player_name_from_alliance_tag "[ABC][DEF]PlayerX" = "[DEF]PlayerX"
    ∧ extract_player_name_from_alliance_tag
        (extract_player_name_from_alliance_tag "[ABC][DEF]PlayerX")
      ≠ extract_player_name_from_alliance_tag "[ABC][DEF]PlayerX" := by
  exact ⟨rfl, by decide⟩

/-- Claim C5 (amended): stripping `"[ABC]PlayerX"` yields `"PlayerX"` and
stripping `"PlayerX"` (no tag) yields `"PlayerX"` unchanged - and stripping is
idempotent on these single-tag inputs - but each leading-tag pattern is applied
only once per call (not repeatedly until no pattern matches), so
`"[ABC][DEF]PlayerX"` strips to `"[DEF]PlayerX"` in one pass. -/
theorem claim_C5_amended :
    extract_player_name_from_alliance_tag "[ABC]PlayerX" = "PlayerX"
    ∧ extract_player_name_from_alliance_tag "PlayerX" = "PlayerX"
    ∧ extract_player_name_from_alliance_tag
        (extract_player_name_from_alliance_tag "[ABC]PlayerX")
      = extract_player_name_from_alliance_tag "[ABC]PlayerX"
    ∧ extract_player_name_from_alliance_tag "[ABC][DEF]PlayerX"
      = "[DEF]PlayerX" := by
  exact ⟨rfl, rfl, rfl, rfl⟩

/-- Claim C6: for every effective area `(ex, ey, ew, eh)` and capture size
`(sw, sh)` with `sw ≤ ew` and `sh ≤ eh`, the capture origin computed by
`_calculate_capture_coordinates` from any center point lies in
`[ex, ex + ew - sw] × [ey, ey + eh - sh]`, so the full capture rectangle fits
inside the effective area. -/
theorem claim_C6_capture_origin_in_bounds :
    ∀ (cx cy : Int) (sw sh : Nat) (ex ey ew eh : Int),
      (sw : Int) ≤ ew → (sh : Int) ≤ eh →
      ex ≤ (calculate_capture_coordinates cx cy sw sh (some (ex, ey, ew, eh))).1
      ∧ (calculate_capture_coordinates cx cy sw sh (some (ex, ey, ew, eh))).1
          ≤ ex + ew - sw
      ∧ ey ≤ (calculate_capture_coordinates cx cy sw sh (some (ex, ey, ew, eh))).2
      ∧ (calculate_capture_coordinates cx cy sw sh (some (ex, ey, ew, eh))).2
          ≤ ey + eh - sh := by
  intro cx cy sw sh ex ey ew eh hw hh
  simp only [calculate_capture_coordinates, safe_clamp]
  omega

/-- Witness for claim C6 at a concrete center, capture size and area. -/
theorem claim_C6_witness :
    ((500 : Int) ≤ 1000 ∧ (400 : Int) ≤ 800)
    ∧ 10 ≤ (calculate_capture_coordinates 0 0 500 400 (some (10, 20, 1000, 800))).1
    ∧ (calculate_capture_coordinates 0 0 500 400 (some (10, 20, 1000, 800))).1
        ≤ 10 + 1000 - 500
    ∧ 20 ≤ (calculate_capture_coordinates 0 0 500 400 (some (10, 20, 1000, 800))).2
    ∧ (calculate_capture_coordinates 0 0 500 400 (some (10, 20, 1000, 800))).2
        ≤ 20 + 800 - 400 := by
  have h := claim_C6_capture_origin_in_bounds 0 0 500 400 10 20 1000 800
    (by decide) (by decide)
  exact ⟨⟨by decide, by decide⟩, h.1, h.2.1, h.2.2.1, h.2.2.2⟩

/-- Claim C7: the corner search declares "corner reached" (and returns
success) exactly on a 450px drag with no detected movement whose immediately
following 200px confirmation drag also detects no movement; a lone no-movement
result whose confirmation does move makes the search continue; exhausting the
`MAX_CORNER_SEARCH_ATTEMPTS = 200` bound still returns success.  The oracle
gives the `moved` answers of the successive `capture_and_detect_movement`
calls; the second component of the result is the call index at which the
corner was declared (`none` on exhaustion). -/
theorem claim_C7_corner_search :
    ∀ (oracle : Nat → Bool) (fuel k j : Nat),
      corner_search_loop oracle 0 k = (true, none)
      ∧ (oracle k = false → oracle (k + 1) = false →
          corner_search_loop oracle (fuel + 1) k = (true, some k))
      ∧ (oracle k = false → oracle (k + 1) = true →
          corner_search_loop oracle (fuel + 1) k
            = corner_search_loop oracle fuel (k + 2))
      ∧ ((corner_search_loop oracle fuel k).2 = some j →
          oracle j = false ∧ oracle (j + 1) = false)
      ∧ (corner_search_loop oracle fuel k).1 = true
      ∧ find_top_left_corner true oracle
          = corner_search_loop oracle CaptureConfig.MAX_CORNER_SEARCH_ATTEMPTS 0
      ∧ CaptureConfig.MAX_CORNER_SEARCH_ATTEMPTS = 200 := by
  intro oracle fuel k j
  refine ⟨rfl, ?_, ?_, corner_search_loop_some oracle fuel k j,
    corner_search_loop_fst oracle fuel k, rfl, rfl⟩
  · intro h1 h2
    simp [corner_search_loop, h1, h2]
  · intro h1 h2
    simp [corner_search_loop, h1, h2]

/-- Witness for claim C7: an oracle that never reports movement makes the
search declare the corner at the first attempt; an oracle whose confirmation
drag moves makes it continue. -/
theorem claim_C7_witness :
    corner_search_loop (fun _ => false) 1 0 = (true, some 0)
    ∧ corner_search_loop (fun n => decide (n = 1)) 1 0
        = corner_search_loop (fun n => decide (n = 1)) 0 2
    ∧ ((fun _ => false : Nat → Bool) 0 = false
        ∧ (fun _ => false : Nat → Bool) 1 = false) := by
  refine ⟨(claim_C7_corner_search (fun _ => false) 0 0 0).2.1 rfl rfl,
    (claim_C7_corner_search (fun n => decide (n = 1)) 0 0 0).2.2.1 rfl rfl,
    (claim_C7_corner_search (fun _ => false) 1 0 0).2.2.2.1 rfl⟩

/-- Claim C8: under the default weights 0.3/0.2/0.2/0.3, the quality score is
strictly monotonic in the confidence (for values at most 100) and in the
readable-word count (for counts at most 4), the other inputs held fixed. -/
theorem claim_C8_quality_monotonic :
    ∀ (c1 c2 height : ℚ) (tc r r1 r2 : Nat),
      (c1 < c2 → c2 ≤ 100 →
        calculate_quality_score c1 height tc r ScanConfig.QUALITY_WEIGHTS
          < calculate_quality_score c2 height tc r ScanConfig.QUALITY_WEIGHTS)
      ∧ (r1 < r2 → r2 ≤ 4 →
        calculate_quality_score c1 height tc r1 ScanConfig.QUALITY_WEIGHTS
          < calculate_quality_score c1 height tc r2 ScanConfig.QUALITY_WEIGHTS) := by
  intro c1 c2 height tc r r1 r2
  constructor
  · intro h1 h2
    have hc := confidence_score_strict_mono c1 c2 h1 h2
    simp only [calculate_quality_score, ScanConfig.QUALITY_WEIGHTS]
    linarith
  · intro h1 h2
    have hr := readability_score_strict_mono r1 r2 h1 h2
    simp only [calculate_quality_score, ScanConfig.QUALITY_WEIGHTS]
    linarith

/-- Witness for claim C8 at concrete inputs. -/
theorem claim_C8_witness :
    ((50 : ℚ) < 60 ∧ (60 : ℚ) ≤ 100
      ∧ calculate_quality_score 50 15 3 1 ScanConfig.QUALITY_WEIGHTS
          < calculate_quality_score 60 15 3 1 ScanConfig.QUALITY_WEIGHTS)
    ∧ (1 < 2 ∧ 2 ≤ 4
      ∧ calculate_quality_score 50 15 3 1 ScanConfig.QUALITY_WEIGHTS
          < calculate_quality_score 50 15 3 2 ScanConfig.QUALITY_WEIGHTS) := by
  refine ⟨⟨by decide, by decide,
      (claim_C8_quality_monotonic 50 60 15 3 1 1 2).1 (by decide) (by decide)⟩,
    ⟨by decide, by decide,
      (claim_C8_quality_monotonic 50 60 15 3 1 1 2).2 (by decide) (by decide)⟩⟩

/-- Claim C9: every candidate match built for one frame carries the frame's
`best_confidence`; at most one match is recorded per entry of the target list
(so the count of matches bearing a given name is bounded by that name's count
in the list); and since all confidences are equal, the single
"highest-confidence" match Python's `max` returns is the match of the earliest
matching target in `target_names`. -/
theorem claim_C9_single_match_earliest :
    ∀ (text : String) (conf : ℚ) (names pre post : List String)
      (name n : String) (m : TargetMatch),
      (∀ m2 ∈ found_targets text conf names, m2.confidence = conf)
      ∧ ((found_targets text conf names).countP (fun m2 => m2.name == n)
          ≤ names.countP (fun t => t == n))
      ∧ (text ≠ "" → (∀ p ∈ pre, match_target text conf p = none) →
          match_target text conf name = some m →
          search_for_targets text conf (pre ++ name :: post) = (true, some m)) := by
  intro text conf names pre post name n m
  refine ⟨found_targets_confidence text conf names,
    found_targets_countP text conf names n, ?_⟩
  intro hne hpre hm
  unfold search_for_targets
  rw [if_neg hne]
  rw [found_targets_append_none text conf pre (name :: post) hpre]
  have hlist : found_targets text conf (name :: post)
      = m :: found_targets text conf post := by
    unfold found_targets
    rw [List.filterMap_cons, hm]
  rw [hlist]
  have hconf : ∀ m2 ∈ m :: found_targets text conf post, m2.confidence = conf := by
    intro m2 hm2
    rcases List.mem_cons.mp hm2 with h | h
    · exact h ▸ match_target_confidence text conf name m hm
    · exact found_targets_confidence text conf post m2 h
  rw [pyMax_all_eq (m :: found_targets text conf post) conf hconf]
  rfl

/-- Witness for claim C9: with text `"bob carol"` both `"bob"` and `"carol"`
match at the same confidence, and the earlier target `"bob"` is the match
returned; the non-matching `"alice"` before it is skipped. -/
theorem claim_C9_witness :
    search_for_targets "bob carol" 7 (["alice"] ++ "bob" :: ["carol"])
      = (true, some ⟨"bob", "bob carol", none, "exact_full", 7⟩) := by
  exact (claim_C9_single_match_earliest "bob carol" 7 [] ["alice"] ["carol"]
    "bob" "" ⟨"bob", "bob carol", none, "exact_full", 7⟩).2.2
    (by decide) (by decide) (by decide)

/-- Claim C10: `capture_screen` raises `SafetyExit` exactly when the running
flag is false, otherwise raises `CaptureError` or returns an actual image
(never `None`); hence the `None`-result branches of
`capture_and_detect_movement` ("Could not capture before/after image") are
unreachable for every combination of inputs. -/
theorem claim_C10_capture_never_none :
    ∀ (flag : Bool) (shot : Except String Frame),
      ((∃ msg, capture_screen flag shot = Except.error (PyExc.safetyExit msg))
        ↔ flag = false)
      ∧ (∀ r, capture_screen flag shot = Except.ok r → r.isSome = true)
      ∧ (∀ (shot2 : Except String Frame) (dragOk : Bool) (corr : ℚ),
          (capture_and_detect_movement flag shot shot2 dragOk corr).2
            ≠ MoveInfo.beforeNone
          ∧ (capture_and_detect_movement flag shot shot2 dragOk corr).2
            ≠ MoveInfo.afterNone) := by
  intro flag shot
  cases flag with
  | false =>
    refine ⟨⟨fun _ => rfl, fun _ => ⟨"Capture stopped", rfl⟩⟩, ?_, ?_⟩
    · intro r h
      simp [capture_screen] at h
    · intro shot2 dragOk corr
      constructor <;> simp [capture_and_detect_movement, capture_screen, PyExc.toMsg]
  | true =>
    refine ⟨⟨?_, ?_⟩, ?_, ?_⟩
    · rintro ⟨msg, h⟩
      cases shot with
      | ok f => simp [capture_screen] at h
      | error e => simp [capture_screen] at h
    · intro h
      simp at h
    · intro r h
      cases shot with
      | ok f =>
        simp only [capture_screen, Bool.true_eq_false, if_false] at h
        obtain rfl := Except.ok.inj h
        rfl
      | error e => simp [capture_screen] at h
    · intro shot2 dragOk corr
      cases shot with
      | error e =>
        constructor <;>
          simp [capture_and_detect_movement, capture_screen, PyExc.toMsg]
      | ok f =>
        cases dragOk with
        | false =>
          constructor <;>
            simp [capture_and_detect_movement, capture_screen, safe_drag]
        | true =>
          cases shot2 with
          | error e2 =>
            constructor <;>
              simp [capture_and_detect_movement, capture_screen, safe_drag,
                PyExc.toMsg]
          | ok f2 =>
            constructor <;>
              simp [capture_and_detect_movement, capture_screen, safe_drag,
                detect_movement, CaptureConfig.similarityThresholdAttr]

/-- Witness for claim C10 at concrete inputs. -/
theorem claim_C10_witness :
    (capture_screen true (Except.ok ([[0]] : Frame)) = Except.ok (some [[0]])
      ∧ (some ([[0]] : Frame)).isSome = true)
    ∧ (∃ msg, capture_screen false (Except.ok ([[0]] : Frame))
        = Except.error (PyExc.safetyExit msg))
    ∧ (capture_and_detect_movement true (Except.ok [[0]]) (Except.ok [[1]])
        true 0).2 ≠ MoveInfo.beforeNone := by
  refine ⟨⟨rfl, (claim_C10_capture_never_none true (Except.ok [[0]])).2.1
      (some [[0]]) rfl⟩,
    (claim_C10_capture_never_none false (Except.ok [[0]])).1.mpr rfl,
    ((claim_C10_capture_never_none true (Except.ok [[0]])).2.2
      (Except.ok [[1]]) true 0).1⟩

end MapScannerProof
